import Mathlib

/-!
Verification of the X-Payments Cloud Python SDK against its specification.

The development shallowly embeds the two source files:
  - `request_params.py`: dataclasses (`Address`, `SubscriptionSchedule`,
    `SubscriptionPlan`, `CartItem`, `Cart`, `PaymentRequestParams`) and their
    `to_dict` serialization;
  - `xpayments_cloud.py`: the `Request` signed-request builder
    (authorization header, HMAC-SHA256 signature header, endpoint
    resolution, `send`) and the `Client` convenience methods.

Python runtime values are modelled by the inductive `PyVal`; Python
exceptions relevant here by `PyError`.  Machine-level collaborators
(SHA-256, HMAC, base64, UTF-8, `json.dumps`) are implemented executably
over `Nat` byte lists.
-/

set_option maxRecDepth 4096

namespace XPay

/-- Model of a Python runtime value as it occurs in this SDK.  `obj cls fs`
models a dataclass instance of class `cls` whose attributes (all of them,
in declaration order) are `fs`; `dict` models a Python dict as an
insertion-ordered association list. -/
inductive PyVal where
  | none
  | bool (b : Bool)
  | int (n : Int)
  | float (q : Rat)
  | str (s : String)
  | list (xs : List PyVal)
  | dict (xs : List (String × PyVal))
  | obj (cls : String) (fields : List (String × PyVal))

/-- Python exceptions that the modelled code can raise. -/
inductive PyError where
  /-- `AttributeError`, e.g. attribute assignment on a `dict`. -/
  | attributeError
  /-- `TypeError`, e.g. `json.dumps` on a non-serializable object. -/
  | typeError
  /-- `requests.HTTPError` raised by `raise_for_status` (carries the status). -/
  | httpError (status : Nat)
  /-- JSON decoding failure of the response body (carries the decoder message). -/
  | jsonError (msg : String)
deriving DecidableEq, Repr

/-- `v.isNone` is `true` exactly when `v` is the Python `None` marker
(the `is not None` test of `BaseParamsClass.to_dict`). -/
def PyVal.isNone : PyVal → Bool
  | .none => true
  | _ => false

/-- Python truthiness (`if v:`) for the value forms the SDK uses. -/
def PyVal.truthy : PyVal → Bool
  | .none => false
  | .bool b => b
  | .int n => n != 0
  | .float q => q != 0
  | .str s => s != ""
  | .list xs => !xs.isEmpty
  | .dict xs => !xs.isEmpty
  | .obj _ _ => true

/-- Embed an optional string attribute (`str | None`). -/
def optStr : Option String → PyVal
  | Option.none => .none
  | Option.some s => .str s

/-- Embed an optional int attribute (`int | None`). -/
def optInt : Option Int → PyVal
  | Option.none => .none
  | Option.some n => .int n

/-- Embed an optional bool attribute (`bool | None`). -/
def optBool : Option Bool → PyVal
  | Option.none => .none
  | Option.some b => .bool b

/-- Embed an optional float attribute (`float | None`). -/
def optFloat : Option Rat → PyVal
  | Option.none => .none
  | Option.some q => .float q

/-- Embed an optional nested dataclass attribute through its object embedding. -/
def optObj (f : α → PyVal) : Option α → PyVal
  | Option.none => .none
  | Option.some a => f a

/-- The contribution of one optional field to a serialized dict: nothing
when absent, the single `(name, embedded value)` pair when present.  Used
only to STATE the `to_dict` characterization theorems. -/
def optEntry (n : String) (f : α → PyVal) : Option α → List (String × PyVal)
  | Option.none => []
  | Option.some a => [(n, f a)]

/- `TransactionType` from `request_params.py`: `Auth` - authorize only,
`Sale` - auth and capture. -/
namespace TransactionType

def Auth : String := "A"

def Sale : String := "S"

end TransactionType

/- `DurationUnit` from `request_params.py`. -/
namespace DurationUnit

def Day : String := "D"

def Week : String := "W"

def Month : String := "M"

def Year : String := "Y"

end DurationUnit

/- `ScheduleType` from `request_params.py`. -/
namespace ScheduleType

def Each : String := "E"

def Every : String := "D"

end ScheduleType

/-- `BaseParamsClass.to_dict`: keep the fields whose raw value is not
`None` (identity test against `None`, not truthiness) and read each kept
value through the getter `get` (`self._get`; the base class getter is the
identity, `PaymentRequestParams` overrides it). -/
def to_dict_of (get : PyVal → PyVal) (fields : List (String × PyVal)) :
    List (String × PyVal) :=
  (fields.filter (fun p => p.2.isNone = false)).map (fun p => (p.1, get p.2))

/-- `Address` dataclass (six required string fields, five optional). -/
structure Address where
  firstname : String
  address : String
  city : String
  state : String
  zipcode : String
  country : String
  lastname : Option String := Option.none
  zip4 : Option String := Option.none
  company : Option String := Option.none
  phone : Option String := Option.none
  fax : Option String := Option.none

/-- The attributes of an `Address` instance, in declaration order
(what `dataclasses.fields` iterates over). -/
def Address.fieldsOf (a : Address) : List (String × PyVal) :=
  [("firstname", .str a.firstname), ("address", .str a.address),
   ("city", .str a.city), ("state", .str a.state),
   ("zipcode", .str a.zipcode), ("country", .str a.country),
   ("lastname", optStr a.lastname), ("zip4", optStr a.zip4),
   ("company", optStr a.company), ("phone", optStr a.phone),
   ("fax", optStr a.fax)]

/-- An `Address` instance as a Python value (a dataclass object carrying
all its attributes, including the `None` ones). -/
def Address.toPy (a : Address) : PyVal := .obj "Address" a.fieldsOf

/-- `Address.to_dict` (inherited from `BaseParamsClass`). -/
def Address.to_dict (a : Address) : List (String × PyVal) :=
  to_dict_of id a.fieldsOf

/-- `SubscriptionSchedule` dataclass (all fields optional; `type` and
`period` hold `ScheduleType` / `DurationUnit` string constants). -/
structure SubscriptionSchedule where
  type : Option String := Option.none
  number : Option Int := Option.none
  reverse : Option Bool := Option.none
  period : Option String := Option.none
  periods : Option Int := Option.none

/-- Attributes of a `SubscriptionSchedule` instance, in declaration order. -/
def SubscriptionSchedule.fieldsOf (s : SubscriptionSchedule) :
    List (String × PyVal) :=
  [("type", optStr s.type), ("number", optInt s.number),
   ("reverse", optBool s.reverse), ("period", optStr s.period),
   ("periods", optInt s.periods)]

/-- A `SubscriptionSchedule` instance as a Python value. -/
def SubscriptionSchedule.toPy (s : SubscriptionSchedule) : PyVal :=
  .obj "SubscriptionSchedule" s.fieldsOf

/-- `SubscriptionSchedule.to_dict` (inherited from `BaseParamsClass`). -/
def SubscriptionSchedule.to_dict (s : SubscriptionSchedule) :
    List (String × PyVal) :=
  to_dict_of id s.fieldsOf

/-- `SubscriptionPlan` dataclass (all fields optional). -/
structure SubscriptionPlan where
  subscriptionSchedule : Option SubscriptionSchedule := Option.none
  callbackUrl : Option String := Option.none
  recurringAmount : Option Rat := Option.none
  description : Option String := Option.none
  uniqueOrderItemId : Option String := Option.none
  trialDuration : Option Int := Option.none
  trialDurationUnit : Option String := Option.none

/-- Attributes of a `SubscriptionPlan` instance, in declaration order. -/
def SubscriptionPlan.fieldsOf (p : SubscriptionPlan) : List (String × PyVal) :=
  [("subscriptionSchedule", optObj SubscriptionSchedule.toPy p.subscriptionSchedule),
   ("callbackUrl", optStr p.callbackUrl),
   ("recurringAmount", optFloat p.recurringAmount),
   ("description", optStr p.description),
   ("uniqueOrderItemId", optStr p.uniqueOrderItemId),
   ("trialDuration", optInt p.trialDuration),
   ("trialDurationUnit", optStr p.trialDurationUnit)]

/-- A `SubscriptionPlan` instance as a Python value. -/
def SubscriptionPlan.toPy (p : SubscriptionPlan) : PyVal :=
  .obj "SubscriptionPlan" p.fieldsOf

/-- `SubscriptionPlan.to_dict` (inherited from `BaseParamsClass`). -/
def SubscriptionPlan.to_dict (p : SubscriptionPlan) : List (String × PyVal) :=
  to_dict_of id p.fieldsOf

/-- `CartItem` dataclass (`sku`, `name`, `price` required). -/
structure CartItem where
  sku : String
  name : String
  price : Rat
  quantity : Option Int := Option.none
  isSubscription : Option Bool := Option.none
  subscriptionPlan : Option SubscriptionPlan := Option.none

/-- Attributes of a `CartItem` instance, in declaration order. -/
def CartItem.fieldsOf (i : CartItem) : List (String × PyVal) :=
  [("sku", .str i.sku), ("name", .str i.name), ("price", .float i.price),
   ("quantity", optInt i.quantity),
   ("isSubscription", optBool i.isSubscription),
   ("subscriptionPlan", optObj SubscriptionPlan.toPy i.subscriptionPlan)]

/-- A `CartItem` instance as a Python value. -/
def CartItem.toPy (i : CartItem) : PyVal := .obj "CartItem" i.fieldsOf

/-- `CartItem.to_dict` (inherited from `BaseParamsClass`). -/
def CartItem.to_dict (i : CartItem) : List (String × PyVal) :=
  to_dict_of id i.fieldsOf

/-- `Cart` dataclass. -/
structure Cart where
  billingAddress : Address
  merchantEmail : String
  currency : String
  items : List CartItem
  totalCost : Rat
  shippingAddress : Option Address := Option.none
  login : Option String := Option.none
  shippingCost : Option Rat := Option.none
  taxCost : Option Rat := Option.none
  discount : Option Rat := Option.none
  description : Option String := Option.none

/-- Attributes of a `Cart` instance, in declaration order. -/
def Cart.fieldsOf (c : Cart) : List (String × PyVal) :=
  [("billingAddress", c.billingAddress.toPy),
   ("merchantEmail", .str c.merchantEmail),
   ("currency", .str c.currency),
   ("items", .list (c.items.map CartItem.toPy)),
   ("totalCost", .float c.totalCost),
   ("shippingAddress", optObj Address.toPy c.shippingAddress),
   ("login", optStr c.login),
   ("shippingCost", optFloat c.shippingCost),
   ("taxCost", optFloat c.taxCost),
   ("discount", optFloat c.discount),
   ("description", optStr c.description)]

/-- A `Cart` instance as a Python value. -/
def Cart.toPy (c : Cart) : PyVal := .obj "Cart" c.fieldsOf

/-- `Cart.to_dict` (inherited from `BaseParamsClass`). -/
def Cart.to_dict (c : Cart) : List (String × PyVal) :=
  to_dict_of id c.fieldsOf

/-- `PaymentRequestParams` dataclass. -/
structure PaymentRequestParams where
  token : String
  refId : String
  returnUrl : String
  cart : Cart
  callbackUrl : Option String := Option.none
  customerId : Option String := Option.none
  forceSaveCard : Option Bool := Option.none
  forceTransactionType : Option String := Option.none
  confId : Option Int := Option.none

/-- Attributes of a `PaymentRequestParams` instance, in declaration order. -/
def PaymentRequestParams.fieldsOf (p : PaymentRequestParams) :
    List (String × PyVal) :=
  [("token", .str p.token), ("refId", .str p.refId),
   ("returnUrl", .str p.returnUrl), ("cart", p.cart.toPy),
   ("callbackUrl", optStr p.callbackUrl),
   ("customerId", optStr p.customerId),
   ("forceSaveCard", optBool p.forceSaveCard),
   ("forceTransactionType", optStr p.forceTransactionType),
   ("confId", optInt p.confId)]

/-- The overridden `PaymentRequestParams._get`: a value of exact type
`bool` is replaced by `"Y"` / `"N"`; every other value passes through. -/
def PaymentRequestParams.pyGet : PyVal → PyVal
  | .bool b => .str (if b then "Y" else "N")
  | v => v

/-- `PaymentRequestParams.to_dict`: the inherited filter on `is not None`
over the raw attribute values, reading kept values through the overridden
`_get`. -/
def PaymentRequestParams.to_dict (p : PaymentRequestParams) :
    List (String × PyVal) :=
  to_dict_of PaymentRequestParams.pyGet p.fieldsOf

/-!  Byte-level collaborators: UTF-8 encoding, lowercase hex, SHA-256,
HMAC-SHA256 and base64, all over `List Nat` bytes (each byte `< 256`). -/

/-- UTF-8 encoding of one character, as `Nat` bytes (Python `str.encode`). -/
def charUtf8 (c : Char) : List Nat :=
  (String.utf8EncodeChar c).map UInt8.toNat

/-- UTF-8 encoding of a string, as `Nat` bytes (Python `str.encode`). -/
def strBytes (s : String) : List Nat :=
  (s.data.map charUtf8).flatten

/-- Truncation to a 32-bit word. -/
def w32 (x : Nat) : Nat := x % 4294967296

/-- 32-bit rotate right (argument assumed `< 2^32`). -/
def rotr32 (n x : Nat) : Nat := w32 ((x >>> n) ||| (x <<< (32 - n)))

/-- The SHA-256 round constants (FIPS 180-4, in decimal). -/
def sha256K : List Nat :=
  [1116352408, 1899447441, 3049323471, 3921009573, 961987163,
   1508970993, 2453635748, 2870763221, 3624381080, 310598401,
   607225278, 1426881987, 1925078388, 2162078206, 2614888103,
   3248222580, 3835390401, 4022224774, 264347078, 604807628,
   770255983, 1249150122, 1555081692, 1996064986, 2554220882,
   2821834349, 2952996808, 3210313671, 3336571891, 3584528711,
   113926993, 338241895, 666307205, 773529912, 1294757372,
   1396182291, 1695183700, 1986661051, 2177026350, 2456956037,
   2730485921, 2820302411, 3259730800, 3345764771, 3516065817,
   3600352804, 4094571909, 275423344, 430227734, 506948616,
   659060556, 883997877, 958139571, 1322822218, 1537002063,
   1747873779, 1955562222, 2024104815, 2227730452, 2361852424,
   2428436474, 2756734187, 3204031479, 3329325298]

/-- The SHA-256 initial hash value (FIPS 180-4, in decimal). -/
def sha256H0 : List Nat :=
  [1779033703, 3144134277, 1013904242, 2773480762,
   1359893119, 2600822924, 528734635, 1541459225]

/-- Big-endian 8-byte encoding of a natural number. -/
def be64 (n : Nat) : List Nat :=
  [(n >>> 56) % 256, (n >>> 48) % 256, (n >>> 40) % 256,
   (n >>> 32) % 256, (n >>> 24) % 256, (n >>> 16) % 256,
   (n >>> 8) % 256, n % 256]

/-- SHA-256 message padding: `0x80`, zeros to 56 mod 64, then the bit
length as a big-endian 64-bit integer. -/
def sha256Pad (msg : List Nat) : List Nat :=
  let L := msg.length
  msg ++ [0x80] ++ List.replicate ((120 - ((L + 1) % 64)) % 64) 0
      ++ be64 (8 * L)

/-- The big-endian 32-bit word starting at byte offset `i` of `bs`. -/
def word32At (bs : List Nat) (i : Nat) : Nat :=
  bs.getD i 0 * 16777216 + bs.getD (i + 1) 0 * 65536 +
    bs.getD (i + 2) 0 * 256 + bs.getD (i + 3) 0

/-- Extend the 16 message words of a block to the full 64-entry schedule
(`n` is the number of words still to append). -/
def sha256Extend : Nat → List Nat → List Nat
  | 0, ws => ws
  | n + 1, ws =>
    let t := ws.length
    let w16 := ws.getD (t - 16) 0
    let w15 := ws.getD (t - 15) 0
    let w7 := ws.getD (t - 7) 0
    let w2 := ws.getD (t - 2) 0
    let s0 := (rotr32 7 w15) ^^^ (rotr32 18 w15) ^^^ (w15 >>> 3)
    let s1 := (rotr32 17 w2) ^^^ (rotr32 19 w2) ^^^ (w2 >>> 10)
    sha256Extend n (ws ++ [w32 (w16 + s0 + w7 + s1)])

/-- One SHA-256 compression round on the working state
`[a, b, c, d, e, f, g, h]`, with round constant `k` and schedule word `w`. -/
def sha256Round (st : List Nat) (k : Nat) (w : Nat) : List Nat :=
  let a := st.getD 0 0
  let b := st.getD 1 0
  let c := st.getD 2 0
  let d := st.getD 3 0
  let e := st.getD 4 0
  let f := st.getD 5 0
  let g := st.getD 6 0
  let h := st.getD 7 0
  let S1 := (rotr32 6 e) ^^^ (rotr32 11 e) ^^^ (rotr32 25 e)
  let ch := (e &&& f) ^^^ ((e ^^^ 4294967295) &&& g)
  let temp1 := w32 (h + S1 + ch + k + w)
  let S0 := (rotr32 2 a) ^^^ (rotr32 13 a) ^^^ (rotr32 22 a)
  let maj := (a &&& b) ^^^ (a &&& c) ^^^ (b &&& c)
  let temp2 := w32 (S0 + maj)
  [w32 (temp1 + temp2), a, b, c, w32 (d + temp1), e, f, g]

/-- Process one 64-byte block: run the 64 compression rounds and add the
result to the incoming hash value, word by word, mod `2^32`. -/
def sha256Block (H : List Nat) (block : List Nat) : List Nat :=
  let ws0 := (List.range 16).map (fun i => word32At block (4 * i))
  let ws := sha256Extend 48 ws0
  let st := (sha256K.zip ws).foldl (fun st kw => sha256Round st kw.1 kw.2) H
  List.zipWith (fun x y => w32 (x + y)) H st

/-- Iterate `sha256Block` over `n` consecutive 64-byte blocks. -/
def sha256Blocks : Nat → List Nat → List Nat → List Nat
  | 0, H, _ => H
  | n + 1, H, bs => sha256Blocks n (sha256Block H (bs.take 64)) (bs.drop 64)

/-- Big-endian 4-byte encoding of a 32-bit word. -/
def be32 (n : Nat) : List Nat :=
  [(n >>> 24) % 256, (n >>> 16) % 256, (n >>> 8) % 256, n % 256]

/-- SHA-256 of a byte list, as the 32-byte digest. -/
def sha256 (msg : List Nat) : List Nat :=
  let p := sha256Pad msg
  ((sha256Blocks (p.length / 64) sha256H0 p).map be32).flatten

/-- HMAC-SHA256 (`hmac.new(key, msg, hashlib.sha256)`): the key is hashed
if longer than the 64-byte block, zero-padded to the block size, and the
digest is `SHA256(key xor opad ++ SHA256(key xor ipad ++ msg))`. -/
def hmacSha256 (key msg : List Nat) : List Nat :=
  let k0 := if 64 < key.length then sha256 key else key
  let k := k0 ++ List.replicate (64 - k0.length) 0
  let ipad := k.map (fun b => b ^^^ 0x36)
  let opad := k.map (fun b => b ^^^ 0x5c)
  sha256 (opad ++ sha256 (ipad ++ msg))

/-- The sixteen lowercase hexadecimal digits, as a string. -/
def hexAlpha : String := "0123456789abcdef"

/-- The lowercase hexadecimal digit of a nibble. -/
def hexChar (n : Nat) : Char :=
  hexAlpha.data.getD n '0'

/-- The two lowercase hexadecimal digits of a byte. -/
def byteHex (b : Nat) : List Char :=
  [hexChar ((b >>> 4) % 16), hexChar (b % 16)]

/-- Lowercase hexadecimal rendering of a byte list
(Python `hashlib` / `hmac` `.hexdigest()`). -/
def hexdigest (bs : List Nat) : String :=
  ⟨(bs.map byteHex).flatten⟩

/-- The base64 alphabet. -/
def b64Alpha : String :=
  "ABCDEFGHIJKLMNOPQRSTUVWXYZabcdefghijklmnopqrstuvwxyz0123456789+/"

/-- The base64 character of a 6-bit group. -/
def b64Char (n : Nat) : Char :=
  b64Alpha.data.getD n 'A'

/-- Base64-encode a byte list, group by group, with `=` padding
(Python `base64.b64encode`). -/
def b64Chars : List Nat → List Char
  | b1 :: b2 :: b3 :: rest =>
    b64Char (b1 >>> 2) :: b64Char (((b1 % 4) <<< 4) ||| (b2 >>> 4)) ::
      b64Char (((b2 % 16) <<< 2) ||| (b3 >>> 6)) :: b64Char (b3 % 64) ::
      b64Chars rest
  | [b1, b2] =>
    [b64Char (b1 >>> 2), b64Char (((b1 % 4) <<< 4) ||| (b2 >>> 4)),
     b64Char (((b2 % 16) <<< 2)), '=']
  | [b1] =>
    [b64Char (b1 >>> 2), b64Char ((b1 % 4) <<< 4), '=', '=']
  | [] => []

/-- Base64 encoding of a byte list, as a string. -/
def b64encode (bs : List Nat) : String := ⟨b64Chars bs⟩

/-!  Collaborator model of `json.dumps` with its defaults (`ensure_ascii`,
item separator `", "`, key separator `": "`).  Dataclass instances
(`PyVal.obj`) are not JSON serializable: `json.dumps` raises `TypeError`
on them. -/

/-- Four lowercase hex digits of a code unit (for `\uXXXX` escapes). -/
def hex4 (n : Nat) : List Char :=
  [hexChar ((n >>> 12) % 16), hexChar ((n >>> 8) % 16),
   hexChar ((n >>> 4) % 16), hexChar (n % 16)]

/-- JSON escape of one character, following `json.dumps` with
`ensure_ascii=True`: the two-character escapes for quote, backslash and
control characters with short forms, `\uXXXX` (with surrogate pairs
beyond the BMP) for other characters outside `0x20`-`0x7e`. -/
def jsonEscapeChar (c : Char) : List Char :=
  if c = '"' then ['\\', '"']
  else if c = '\\' then ['\\', '\\']
  else if c = '\n' then ['\\', 'n']
  else if c = '\r' then ['\\', 'r']
  else if c = '\t' then ['\\', 't']
  else if c.toNat = 8 then ['\\', 'b']
  else if c.toNat = 12 then ['\\', 'f']
  else if c.toNat < 32 || 126 < c.toNat then
    if c.toNat ≤ 65535 then '\\' :: 'u' :: hex4 c.toNat
    else
      let u := c.toNat - 65536
      ('\\' :: 'u' :: hex4 (55296 + u / 1024)) ++
        ('\\' :: 'u' :: hex4 (56320 + u % 1024))
  else [c]

/-- A JSON string literal: the escaped text between double quotes. -/
def jsonQuote (s : String) : String :=
  ⟨'"' :: (s.data.map jsonEscapeChar).flatten ++ ['"']⟩

/-- Collaborator model of Python float repr as used by `json.dumps`: exact
for integral values (`1.0`, `10.0`, ...); fractional values are rendered
as rational text, which no claim evaluates. -/
def floatRepr (q : Rat) : String :=
  if q.den = 1 then toString q.num ++ ".0" else toString q

mutual

/-- `json.dumps` on a Python value (defaults: `ensure_ascii`, separators
`", "` and `": "`).  A dataclass instance raises `TypeError`. -/
def json_dumps : PyVal → Except PyError String
  | .none => .ok "null"
  | .bool b => .ok (if b then "true" else "false")
  | .int n => .ok (toString n)
  | .float q => .ok (floatRepr q)
  | .str s => .ok (jsonQuote s)
  | .list xs =>
    match json_dumpsList xs with
    | .error e => .error e
    | .ok parts => .ok ("[" ++ String.intercalate ", " parts ++ "]")
  | .dict xs =>
    match json_dumpsEntries xs with
    | .error e => .error e
    | .ok parts => .ok ("\x7b" ++ String.intercalate ", " parts ++ "\x7d")
  | .obj _ _ => .error .typeError

/-- `json.dumps` of each element of a JSON array. -/
def json_dumpsList : List PyVal → Except PyError (List String)
  | [] => .ok []
  | v :: vs =>
    match json_dumps v with
    | .error e => .error e
    | .ok s =>
      match json_dumpsList vs with
      | .error e => .error e
      | .ok ss => .ok (s :: ss)

/-- `json.dumps` of each `"key": value` entry of a JSON object. -/
def json_dumpsEntries : List (String × PyVal) → Except PyError (List String)
  | [] => .ok []
  | (k, v) :: vs =>
    match json_dumps v with
    | .error e => .error e
    | .ok s =>
      match json_dumpsEntries vs with
      | .error e => .error e
      | .ok ss => .ok ((jsonQuote k ++ ": " ++ s) :: ss)

end

/-!  Embedding of `xpayments_cloud.py`.  The module-level global
`XPAYMENTS_SDK_DEBUG_SERVER_HOST` (initially `""`) is passed explicitly
as the `debug_host` argument wherever the source reads it. -/

/-- The `Request` class: the three credentials stored by `__init__`. -/
structure Request where
  account : String
  api_key : String
  secret_key : String

/-- `Request.XP_DOMAIN`. -/
def Request.XP_DOMAIN : String := "xpayments.com"

/-- `Request.API_VERSION`. -/
def Request.API_VERSION : String := "4.8"

/-- `Request.connection_timeout`. -/
def Request.connection_timeout : Nat := 120

/-- `Request.__init__`: stores the three arguments verbatim.  The source
constructor performs no validation and cannot raise. -/
def Request.init (account api_key secret_key : String) : Request :=
  ⟨account, api_key, secret_key⟩

/-- `Request.get_authorization_header`: base64 of
`"%s:%s" % (account, api_key)` encoded as UTF-8. -/
def Request.get_authorization_header (r : Request) : String :=
  b64encode (strBytes (r.account ++ ":" ++ r.api_key))

/-- `Request.get_signature_header`: `message = action + data`, then the
hex digest of `hmac.new(secret_key.encode(), message.encode(),
hashlib.sha256)`. -/
def Request.get_signature_header (r : Request) (action data : String) : String :=
  let message := action ++ data
  hexdigest (hmacSha256 (strBytes r.secret_key) (strBytes message))

/-- `Request.get_server_host`: the debug host when truthy (a Python string
is truthy exactly when non-empty), otherwise `account + "." + XP_DOMAIN`. -/
def Request.get_server_host (debug_host : String) (r : Request) : String :=
  if debug_host ≠ "" then debug_host
  else r.account ++ "." ++ Request.XP_DOMAIN

/-- `Request.get_api_endpoint` (note the source's parameter order:
`action` first, `controller` second). -/
def Request.get_api_endpoint (debug_host : String) (r : Request)
    (action controller : String) : String :=
  "https://" ++ r.get_server_host debug_host ++ "/api/" ++
    Request.API_VERSION ++ "/" ++ controller ++ "/" ++ action

/-- The transport collaborator's answer to the one HTTP POST of `send`:
its status code and the result of decoding its body as JSON
(`response.json()`). -/
structure HttpResponse where
  status : Nat
  jsonBody : Except String PyVal

/-- Everything observable about one `Request.send` call: either the Python
exception it raises, or the url/headers/body of the POST it issued
together with the value `send` returns to its caller and the list of
values it prints. -/
inductive SendOutcome where
  | raised (e : PyError)
  | returned (url : String) (headers : List (String × String)) (body : String)
      (value : PyVal) (printed : List PyVal)

/-- The value a non-raising `send` call returns to its caller. -/
def SendOutcome.retValue : SendOutcome → Option PyVal
  | .raised _ => Option.none
  | .returned _ _ _ v _ => Option.some v

/-- The values a non-raising `send` call prints. -/
def SendOutcome.printedVals : SendOutcome → List PyVal
  | .raised _ => []
  | .returned _ _ _ _ p => p

/-- `Request.send`: serialize `request_data` with `json.dumps`, resolve the
endpoint, build the three headers, POST (the transport's answer is the
`resp` argument), `raise_for_status` (raises for status 400-599), then
`print(response.json())` and fall off the end of the function - returning
Python `None` to the caller. -/
def Request.send (debug_host : String) (r : Request)
    (controller action : String) (request_data : PyVal)
    (resp : HttpResponse) : SendOutcome :=
  match json_dumps request_data with
  | .error e => .raised e
  | .ok body =>
    let url := r.get_api_endpoint debug_host action controller
    let headers :=
      [("Authorization", "Basic " ++ r.get_authorization_header),
       ("X-Payments-Signature", r.get_signature_header action body),
       ("Content-Type", "application/json")]
    if 400 ≤ resp.status ∧ resp.status < 600 then
      .raised (.httpError resp.status)
    else
      match resp.jsonBody with
      | .error m => .raised (.jsonError m)
      | .ok v => .returned url headers body PyVal.none [v]

/-- The `Client` class: the three credentials stored by `__init__`. -/
structure Client where
  account : String
  api_key : String
  secret_key : String

/-- `Client.__init__`: stores the three arguments verbatim.  The source
constructor performs no validation and cannot raise. -/
def Client.init (account api_key secret_key : String) : Client :=
  ⟨account, api_key, secret_key⟩

/-- The params dict built by `Client.do_pay` before it is handed to
`request.send('payment', 'pay', params)`: six unconditional keys, then an
unconditional `force_save_card` set to `"Y"` when the argument is truthy
and `"N"` otherwise, then `force_transaction_type` and `confId` added
only when their arguments are truthy (`force_conf_id` defaults to `0`,
which is falsy). -/
def Client.do_pay_params (token ref_id customer_id cart return_url
    callback_url force_save_card force_transaction_type force_conf_id :
    PyVal) : List (String × PyVal) :=
  [("token", token), ("refId", ref_id), ("customerId", customer_id),
   ("cart", cart), ("returnUrl", return_url),
   ("callbackUrl", callback_url)] ++
  [("force_save_card",
    if force_save_card.truthy then PyVal.str "Y" else PyVal.str "N")] ++
  (if force_transaction_type.truthy then
     [("force_transaction_type", force_transaction_type)]
   else []) ++
  (if force_conf_id.truthy then [("confId", force_conf_id)] else [])

/-- `Client.do_action` up to the `request.send('payment', action, params)`
call: `params = {"xpid": xpid}`, and when `0 < amount` the statement
`params.amount = amount` executes - attribute assignment on a Python
`dict`, which raises `AttributeError`.  On the non-raising path the
result is the `(controller, action, params)` triple handed to `send`. -/
def Client.do_action_params (action xpid : String) (amount : Int) :
    Except PyError (String × String × List (String × PyVal)) :=
  let params := [("xpid", PyVal.str xpid)]
  if 0 < amount then .error .attributeError
  else .ok ("payment", action, params)

/-- `Client.do_capture`: `do_action("capture", xpid, amount)`. -/
def Client.do_capture_params (xpid : String) (amount : Int) :
    Except PyError (String × String × List (String × PyVal)) :=
  Client.do_action_params "capture" xpid amount

/-- `Client.do_void`: `do_action("void", xpid, amount)`. -/
def Client.do_void_params (xpid : String) (amount : Int) :
    Except PyError (String × String × List (String × PyVal)) :=
  Client.do_action_params "void" xpid amount

/-- `Client.do_refund`: `do_action("refund", xpid, amount)`. -/
def Client.do_refund_params (xpid : String) (amount : Int) :
    Except PyError (String × String × List (String × PyVal)) :=
  Client.do_action_params "refund" xpid amount

/-!  Concrete instances used by counterexamples and evaluation theorems. -/

/-- A concrete `Address` whose optional fields are all absent. -/
def cexAddr : Address :=
  { firstname := "John", address := "1 Main St", city := "Springfield",
    state := "IL", zipcode := "62701", country := "US" }

/-- A concrete `CartItem` marked as a subscription
(`isSubscription = True`). -/
def cexItem : CartItem :=
  { sku := "SKU1", name := "Widget", price := 5, isSubscription := Option.some true }

/-- A concrete `Cart` holding `cexAddr` and `cexItem`. -/
def cexCart : Cart :=
  { billingAddress := cexAddr, merchantEmail := "m@example.com",
    currency := "USD", items := [cexItem], totalCost := 5 }

/-- A concrete `SubscriptionSchedule` with `reverse = False` present. -/
def cexSched : SubscriptionSchedule :=
  { type := Option.some ScheduleType.Every, number := Option.some 10,
    reverse := Option.some false }

/-- The `Request` used by the concrete `send` evaluation. -/
def req0 : Request := Request.init "acme" "apikey" "secret"

/-- A transport answer: HTTP status 200 with a body that decodes to the
JSON object with the single entry `"status": "ok"`. -/
def resp200 : HttpResponse :=
  ⟨200, Except.ok (PyVal.dict [("status", PyVal.str "ok")])⟩

/-!  Helper lemmas. -/

/-- UTF-8 encoding maps string concatenation to byte concatenation. -/
theorem strBytes_append (a b : String) :
    strBytes (a ++ b) = strBytes a ++ strBytes b := by
  simp [strBytes, String.data_append]

/-- Every nibble digit is drawn from the lowercase hex alphabet. -/
theorem hexCharMem : ∀ n < 16, hexChar n ∈ hexAlpha.data := by decide

/-- Every character of a hex digest is a lowercase hexadecimal digit. -/
theorem hexdigest_all (bs : List Nat) :
    (hexdigest bs).data.all (fun c => hexAlpha.data.contains c) = true := by
  induction bs with
  | nil => rfl
  | cons b bs ih =>
    simp only [hexdigest] at ih ⊢
    simp [byteHex] at ih ⊢
    exact ⟨hexCharMem _ (Nat.mod_lt _ (by norm_num)),
           hexCharMem _ (Nat.mod_lt _ (by norm_num)), ih⟩

/-- Reassociation of the literal path segments around the API version. -/
theorem strA (x : String) : x ++ "/api/" ++ "4.8" ++ "/" = x ++ "/api/4.8/" := by
  rw [String.append_assoc, String.append_assoc]; rfl

/-- Reassociation of the literal domain suffix. -/
theorem strDot (x : String) : x ++ "." ++ "xpayments.com" = x ++ ".xpayments.com" := by
  rw [String.append_assoc]; rfl

/-- `Address.to_dict` keeps the six required fields and exactly the
present optional ones, each with its explicit value. -/
theorem addr_to_dict_eq (a : Address) :
    a.to_dict =
      [("firstname", PyVal.str a.firstname), ("address", PyVal.str a.address),
       ("city", PyVal.str a.city), ("state", PyVal.str a.state),
       ("zipcode", PyVal.str a.zipcode), ("country", PyVal.str a.country)] ++
      optEntry "lastname" PyVal.str a.lastname ++
      optEntry "zip4" PyVal.str a.zip4 ++
      optEntry "company" PyVal.str a.company ++
      optEntry "phone" PyVal.str a.phone ++
      optEntry "fax" PyVal.str a.fax := by
  obtain ⟨f, ad, ci, st, zi, co, ln, z4, cp, ph, fx⟩ := a
  cases ln <;> cases z4 <;> cases cp <;> cases ph <;> cases fx <;> rfl

/-- `SubscriptionSchedule.to_dict` keeps exactly the present fields. -/
theorem sched_to_dict_eq (s : SubscriptionSchedule) :
    s.to_dict =
      optEntry "type" PyVal.str s.type ++
      optEntry "number" PyVal.int s.number ++
      optEntry "reverse" PyVal.bool s.reverse ++
      optEntry "period" PyVal.str s.period ++
      optEntry "periods" PyVal.int s.periods := by
  obtain ⟨ty, nu, rv, pe, ps⟩ := s
  cases ty <;> cases nu <;> cases rv <;> cases pe <;> cases ps <;> rfl

/-- `SubscriptionPlan.to_dict` keeps exactly the present fields. -/
theorem plan_to_dict_eq (p : SubscriptionPlan) :
    p.to_dict =
      optEntry "subscriptionSchedule" SubscriptionSchedule.toPy
        p.subscriptionSchedule ++
      optEntry "callbackUrl" PyVal.str p.callbackUrl ++
      optEntry "recurringAmount" PyVal.float p.recurringAmount ++
      optEntry "description" PyVal.str p.description ++
      optEntry "uniqueOrderItemId" PyVal.str p.uniqueOrderItemId ++
      optEntry "trialDuration" PyVal.int p.trialDuration ++
      optEntry "trialDurationUnit" PyVal.str p.trialDurationUnit := by
  obtain ⟨ss, cb, ra, de, uo, td, tu⟩ := p
  cases ss <;> cases cb <;> cases ra <;> cases de <;> cases uo <;>
    cases td <;> cases tu <;> rfl

/-- `CartItem.to_dict` keeps the three required fields and exactly the
present optional ones. -/
theorem item_to_dict_eq (i : CartItem) :
    i.to_dict =
      [("sku", PyVal.str i.sku), ("name", PyVal.str i.name),
       ("price", PyVal.float i.price)] ++
      optEntry "quantity" PyVal.int i.quantity ++
      optEntry "isSubscription" PyVal.bool i.isSubscription ++
      optEntry "subscriptionPlan" SubscriptionPlan.toPy i.subscriptionPlan := by
  obtain ⟨sk, nm, pr, q, su, sp⟩ := i
  cases q <;> cases su <;> cases sp <;> rfl

/-- `Cart.to_dict` keeps the five required fields and exactly the present
optional ones. -/
theorem cart_to_dict_eq (c : Cart) :
    c.to_dict =
      [("billingAddress", c.billingAddress.toPy),
       ("merchantEmail", PyVal.str c.merchantEmail),
       ("currency", PyVal.str c.currency),
       ("items", PyVal.list (c.items.map CartItem.toPy)),
       ("totalCost", PyVal.float c.totalCost)] ++
      optEntry "shippingAddress" Address.toPy c.shippingAddress ++
      optEntry "login" PyVal.str c.login ++
      optEntry "shippingCost" PyVal.float c.shippingCost ++
      optEntry "taxCost" PyVal.float c.taxCost ++
      optEntry "discount" PyVal.float c.discount ++
      optEntry "description" PyVal.str c.description := by
  obtain ⟨ba, me, cu, it, tc, sa, lo, sc, tx, di, de⟩ := c
  cases sa <;> cases lo <;> cases sc <;> cases tx <;> cases di <;>
    cases de <;> rfl

/-- `PaymentRequestParams.to_dict` keeps the four required fields and
exactly the present optional ones; only the bool-typed `forceSaveCard`
is translated to `"Y"` / `"N"` by the overridden getter. -/
theorem prp_to_dict_eq (p : PaymentRequestParams) :
    p.to_dict =
      [("token", PyVal.str p.token), ("refId", PyVal.str p.refId),
       ("returnUrl", PyVal.str p.returnUrl), ("cart", p.cart.toPy)] ++
      optEntry "callbackUrl" PyVal.str p.callbackUrl ++
      optEntry "customerId" PyVal.str p.customerId ++
      optEntry "forceSaveCard"
        (fun b => PyVal.str (if b then "Y" else "N")) p.forceSaveCard ++
      optEntry "forceTransactionType" PyVal.str p.forceTransactionType ++
      optEntry "confId" PyVal.int p.confId := by
  obtain ⟨t, rf, u, c, cb, ci, fs, ft, cf⟩ := p
  cases cb <;> cases ci <;> cases fs <;> cases ft <;> cases cf <;> rfl

/-!  Claim theorems. -/

/-- C1: for every secret key, action name and serialized JSON body, the
signature header computed by `Request.get_signature_header` equals the
lowercase hexadecimal digest of HMAC-SHA256 keyed by the secret key over
the action name immediately followed by the JSON body, with no separator
between them.  The second conjunct checks that every output character is
a lowercase hexadecimal digit, the third checks a fixed known vector. -/
theorem C1_signature_header (r : Request) (action data : String) :
    r.get_signature_header action data =
      hexdigest (hmacSha256 (strBytes r.secret_key)
        (strBytes action ++ strBytes data)) ∧
    ((r.get_signature_header action data).data.all
      (fun c => hexAlpha.data.contains c)) = true ∧
    (Request.init "acme" "apikey" "secret").get_signature_header "pay"
        "\x7b\x7d" =
      "39ec3e62f6256a1fb3c72723fc3cc4ee380481d581a16ec3528ce2d0fcc24594" := by
  refine ⟨?_, hexdigest_all _, rfl⟩
  simp [Request.get_signature_header, strBytes_append]

/-- C2: for every parameter structure, the mapping returned by `to_dict`
omits exactly the fields whose value is the absent marker `None` and
includes every field holding an explicit value - including falsy-but-
present values such as `0`, `""` and `False` - verbatim; presence is
decided by the `None` test alone. -/
theorem C2_to_dict_presence :
    (∀ a : Address, a.to_dict =
      [("firstname", PyVal.str a.firstname), ("address", PyVal.str a.address),
       ("city", PyVal.str a.city), ("state", PyVal.str a.state),
       ("zipcode", PyVal.str a.zipcode), ("country", PyVal.str a.country)] ++
      optEntry "lastname" PyVal.str a.lastname ++
      optEntry "zip4" PyVal.str a.zip4 ++
      optEntry "company" PyVal.str a.company ++
      optEntry "phone" PyVal.str a.phone ++
      optEntry "fax" PyVal.str a.fax) ∧
    (∀ s : SubscriptionSchedule, s.to_dict =
      optEntry "type" PyVal.str s.type ++
      optEntry "number" PyVal.int s.number ++
      optEntry "reverse" PyVal.bool s.reverse ++
      optEntry "period" PyVal.str s.period ++
      optEntry "periods" PyVal.int s.periods) ∧
    (∀ p : SubscriptionPlan, p.to_dict =
      optEntry "subscriptionSchedule" SubscriptionSchedule.toPy
        p.subscriptionSchedule ++
      optEntry "callbackUrl" PyVal.str p.callbackUrl ++
      optEntry "recurringAmount" PyVal.float p.recurringAmount ++
      optEntry "description" PyVal.str p.description ++
      optEntry "uniqueOrderItemId" PyVal.str p.uniqueOrderItemId ++
      optEntry "trialDuration" PyVal.int p.trialDuration ++
      optEntry "trialDurationUnit" PyVal.str p.trialDurationUnit) ∧
    (∀ i : CartItem, i.to_dict =
      [("sku", PyVal.str i.sku), ("name", PyVal.str i.name),
       ("price", PyVal.float i.price)] ++
      optEntry "quantity" PyVal.int i.quantity ++
      optEntry "isSubscription" PyVal.bool i.isSubscription ++
      optEntry "subscriptionPlan" SubscriptionPlan.toPy i.subscriptionPlan) ∧
    (∀ c : Cart, c.to_dict =
      [("billingAddress", c.billingAddress.toPy),
       ("merchantEmail", PyVal.str c.merchantEmail),
       ("currency", PyVal.str c.currency),
       ("items", PyVal.list (c.items.map CartItem.toPy)),
       ("totalCost", PyVal.float c.totalCost)] ++
      optEntry "shippingAddress" Address.toPy c.shippingAddress ++
      optEntry "login" PyVal.str c.login ++
      optEntry "shippingCost" PyVal.float c.shippingCost ++
      optEntry "taxCost" PyVal.float c.taxCost ++
      optEntry "discount" PyVal.float c.discount ++
      optEntry "description" PyVal.str c.description) ∧
    (∀ p : PaymentRequestParams, p.to_dict =
      [("token", PyVal.str p.token), ("refId", PyVal.str p.refId),
       ("returnUrl", PyVal.str p.returnUrl), ("cart", p.cart.toPy)] ++
      optEntry "callbackUrl" PyVal.str p.callbackUrl ++
      optEntry "customerId" PyVal.str p.customerId ++
      optEntry "forceSaveCard"
        (fun b => PyVal.str (if b then "Y" else "N")) p.forceSaveCard ++
      optEntry "forceTransactionType" PyVal.str p.forceTransactionType ++
      optEntry "confId" PyVal.int p.confId) :=
  ⟨addr_to_dict_eq, sched_to_dict_eq,
   plan_to_dict_eq, item_to_dict_eq, cart_to_dict_eq,
   prp_to_dict_eq⟩

/-- C3 counterexample: the claim that EVERY boolean-typed field serializes
as `"Y"` / `"N"` is false - `CartItem.isSubscription = True` serializes
as the native boolean `True` (and `SubscriptionSchedule.reverse = False`
as `False`), because only `PaymentRequestParams` overrides `_get`. -/
theorem C3_counterexample :
    cexItem.to_dict.lookup "isSubscription" = Option.some (PyVal.bool true) ∧
    cexSched.to_dict.lookup "reverse" = Option.some (PyVal.bool false) ∧
    PyVal.bool true ≠ PyVal.str "Y" ∧
    PyVal.bool false ≠ PyVal.str "N" := by
  refine ⟨rfl, rfl, ?_, ?_⟩ <;> (intro h; exact PyVal.noConfusion h)

/-- C3 amended: only `PaymentRequestParams` translates a present boolean
to `"Y"` / `"N"` (via its overridden `_get`); the boolean fields of the
other structures (`CartItem.isSubscription`, `SubscriptionSchedule.reverse`)
serialize as native booleans when present. -/
theorem C3_boolean_flags (p : PaymentRequestParams) (i : CartItem)
    (s : SubscriptionSchedule) :
    p.to_dict.lookup "forceSaveCard" =
      p.forceSaveCard.map (fun b => PyVal.str (if b then "Y" else "N")) ∧
    i.to_dict.lookup "isSubscription" = i.isSubscription.map PyVal.bool ∧
    s.to_dict.lookup "reverse" = s.reverse.map PyVal.bool := by
  refine ⟨?_, ?_, ?_⟩
  · obtain ⟨t, rf, u, c, cb, ci, fs, ft, cf⟩ := p
    cases cb <;> cases ci <;> cases fs <;> cases ft <;> cases cf <;> rfl
  · obtain ⟨sk, nm, pr, q, su, sp⟩ := i
    cases q <;> cases su <;> cases sp <;> rfl
  · obtain ⟨ty, nu, rv, pe, ps⟩ := s
    cases ty <;> cases nu <;> cases rv <;> cases pe <;> cases ps <;> rfl

/-- C4: evaluation of `Request.send` at a concrete successful exchange
(status 200, body decoding to the object `"status": "ok"`): contrary to
the claim (and to `send`'s own docstring, which declares a return value),
`send` PRINTS the decoded JSON value and returns Python `None` to the
caller, not the decoded value. -/
theorem C4_send_prints_and_returns_none :
    (Request.send "" req0 "payment" "pay"
        (PyVal.dict [("xpid", PyVal.str "x")]) resp200).retValue =
      Option.some PyVal.none ∧
    (Request.send "" req0 "payment" "pay"
        (PyVal.dict [("xpid", PyVal.str "x")]) resp200).printedVals =
      [PyVal.dict [("status", PyVal.str "ok")]] ∧
    PyVal.none ≠ PyVal.dict [("status", PyVal.str "ok")] := by
  refine ⟨rfl, rfl, ?_⟩
  intro h; exact PyVal.noConfusion h

/-- C5 counterexample: constructing a `Request` or a `Client` with all
three credentials equal to the empty string succeeds and stores the empty
strings verbatim - no `InvalidArgument` (or any other) error exists in
the source, so the claimed validation cannot occur. -/
theorem C5_counterexample :
    Request.init "" "" "" = (⟨"", "", ""⟩ : Request) ∧
    Client.init "" "" "" = (⟨"", "", ""⟩ : Client) :=
  ⟨rfl, rfl⟩

/-- C5 amended: construction performs no validation at all - it stores
the given credentials verbatim (empty or not), raises nothing, and makes
no network call (the constructors are pure). -/
theorem C5_no_validation (account api_key secret_key : String) :
    Request.init account api_key secret_key =
      (⟨account, api_key, secret_key⟩ : Request) ∧
    Client.init account api_key secret_key =
      (⟨account, api_key, secret_key⟩ : Client) :=
  ⟨rfl, rfl⟩

/-- C6 counterexample: in `cexCart.to_dict` the `billingAddress` value is
the raw `Address` dataclass object - not its serialized dict - and that
raw object still carries its absent `lastname` field, refuting the claim
that every nested structure in the output is serialized with absent
fields removed. -/
theorem C6_counterexample :
    cexCart.to_dict.lookup "billingAddress" = Option.some cexAddr.toPy ∧
    cexAddr.toPy ≠ PyVal.dict cexAddr.to_dict ∧
    ("lastname", PyVal.none) ∈ cexAddr.fieldsOf := by
  refine ⟨rfl, ?_, ?_⟩
  · intro h; exact PyVal.noConfusion h
  · simp [cexAddr, Address.fieldsOf, optStr]

/-- C6 amended: `to_dict` applies the omit-if-absent rule only at the top
level; nested structures (the `Address` in a `Cart`, each `CartItem` in
the item list, the `SubscriptionPlan` in a `CartItem`) are included as
raw dataclass objects carrying ALL their fields, absent ones included. -/
theorem C6_shallow_serialization (c : Cart) (i : CartItem) :
    c.to_dict.lookup "billingAddress" =
      Option.some (PyVal.obj "Address" c.billingAddress.fieldsOf) ∧
    c.to_dict.lookup "items" =
      Option.some (PyVal.list (c.items.map CartItem.toPy)) ∧
    c.to_dict.lookup "shippingAddress" =
      c.shippingAddress.map (fun a => PyVal.obj "Address" a.fieldsOf) ∧
    i.to_dict.lookup "subscriptionPlan" =
      i.subscriptionPlan.map
        (fun sp => PyVal.obj "SubscriptionPlan" sp.fieldsOf) := by
  refine ⟨rfl, rfl, ?_, ?_⟩
  · obtain ⟨ba, me, cu, it, tc, sa, lo, sc, tx, di, de⟩ := c
    cases sa <;> cases lo <;> cases sc <;> cases tx <;> cases di <;>
      cases de <;> rfl
  · obtain ⟨sk, nm, pr, q, su, sp⟩ := i
    cases q <;> cases su <;> cases sp <;> rfl

/-- C7: `get_api_endpoint` returns
`"https://" ++ host ++ "/api/4.8/" ++ controller ++ "/" ++ action`, where
`host` is the debug override when non-empty and `account ++
".xpayments.com"` otherwise; in particular for account `"acme"` with no
override, `get_api_endpoint("pay", "payment")` is
`"https://acme.xpayments.com/api/4.8/payment/pay"`. -/
theorem C7_endpoint_resolution (debug_host : String) (r : Request)
    (controller action : String) :
    r.get_api_endpoint debug_host action controller =
      "https://" ++ (if debug_host ≠ "" then debug_host
        else r.account ++ ".xpayments.com") ++
      "/api/4.8/" ++ controller ++ "/" ++ action ∧
    (Request.init "acme" "apikey" "secret").get_api_endpoint "" "pay"
        "payment" =
      "https://acme.xpayments.com/api/4.8/payment/pay" := by
  constructor
  · unfold Request.get_api_endpoint Request.get_server_host
    simp only [Request.API_VERSION, Request.XP_DOMAIN]
    split
    · rw [strA]
    · rw [strDot, strA]
  · rfl

/-- C8: the Basic-Auth value computed by `get_authorization_header` equals
the base64 encoding of `account ++ ":" ++ apiKey`; checked additionally
on the fixed vector `acme:key`. -/
theorem C8_authorization_header (r : Request) :
    r.get_authorization_header =
      b64encode (strBytes (r.account ++ ":" ++ r.api_key)) ∧
    (Request.init "acme" "key" "secret").get_authorization_header =
      "YWNtZTprZXk=" :=
  ⟨rfl, rfl⟩

/-- C9: evaluation of `do_capture` / `do_void` / `do_refund` at a positive
and at a zero amount: with `amount > 0` the statement
`params.amount = amount` (attribute assignment on a Python dict) raises
`AttributeError`, so request construction does NOT complete and no amount
field is ever included; with `amount = 0` the params contain only `xpid`. -/
theorem C9_do_action_amount_bug :
    Client.do_capture_params "xp123" 5 =
      Except.error PyError.attributeError ∧
    Client.do_void_params "xp123" 5 = Except.error PyError.attributeError ∧
    Client.do_refund_params "xp123" 5 =
      Except.error PyError.attributeError ∧
    Client.do_capture_params "xp123" 0 =
      Except.ok ("payment", "capture", [("xpid", PyVal.str "xp123")]) ∧
    Client.do_void_params "xp123" 0 =
      Except.ok ("payment", "void", [("xpid", PyVal.str "xp123")]) ∧
    Client.do_refund_params "xp123" 0 =
      Except.ok ("payment", "refund", [("xpid", PyVal.str "xp123")]) :=
  ⟨rfl, rfl, rfl, rfl, rfl, rfl⟩

/-- C10: the params built by `do_pay` always contain `force_save_card` -
`"Y"` when the argument is truthy, `"N"` otherwise, never omitted - and
always contain `customerId` and `callbackUrl` verbatim, even when those
arguments are `None` (last conjunct: the all-`None` instantiation). -/
theorem C10_do_pay_params_always_present (token ref_id customer_id cart
    return_url callback_url force_save_card force_transaction_type
    force_conf_id : PyVal) :
    (Client.do_pay_params token ref_id customer_id cart return_url
        callback_url force_save_card force_transaction_type
        force_conf_id).lookup "force_save_card" =
      Option.some (if force_save_card.truthy then PyVal.str "Y"
        else PyVal.str "N") ∧
    (Client.do_pay_params token ref_id customer_id cart return_url
        callback_url force_save_card force_transaction_type
        force_conf_id).lookup "customerId" = Option.some customer_id ∧
    (Client.do_pay_params token ref_id customer_id cart return_url
        callback_url force_save_card force_transaction_type
        force_conf_id).lookup "callbackUrl" = Option.some callback_url ∧
    (Client.do_pay_params (PyVal.str "t") (PyVal.str "r") PyVal.none
        (PyVal.dict []) (PyVal.str "u") PyVal.none PyVal.none PyVal.none
        (PyVal.int 0)).lookup "force_save_card" =
      Option.some (PyVal.str "N") :=
  ⟨rfl, rfl, rfl, rfl⟩

end XPay
